import Mathlib

/-!
Shallow embedding of the order status transition engine of the
`portfolio-drf-bookstore` repository, centred on
`store/services/order_updater.py` (class `OrderUpdater`) together with the
relevant parts of `store/models.py` (the `Order` and `OrderHistory` models).

The engine is modelled as a pipeline of stages acting on an explicit state
record `St`.  A stage either continues (`Except.ok`) or raises
(`Except.error`), and a raised error carries the state at the moment of the
raise, so that the persisted database effects (`dbOrder`, `dbHistory`) at
abort time are observable in theorems.  Machine time is a `Nat` parameter
`now` standing for `timezone.localtime()`.
-/

/-- The closed order-status enumeration (the `OrderStatus` seed rows,
identified by slug: pending, shipped, delivered, under-review, cancelled,
refunded, failed). -/
inductive Status where
  | pending
  | shipped
  | delivered
  | underReview
  | cancelled
  | refunded
  | failed
deriving DecidableEq, Repr

/-- Roles as returned by `config/core/roles.py::get_role`. -/
inductive Role where
  | admin
  | manager
  | delivery
  | customer
  | anonymous
deriving DecidableEq, Repr

/-- Customer intents accepted by the serializer's `intent` choice field. -/
inductive Intent where
  | cancellation
  | refund
deriving DecidableEq, Repr

/-- The order fields a change-set may mention (keys of the validated data
dict, plus the pseudo-field `intent`). -/
inductive OrderField where
  | status
  | deliverer
  | delivery_address
  | intent
deriving DecidableEq, Repr

/-- The `Order` model (`store/models.py`, lines 112-122).  Foreign keys are
modelled by numeric identifiers; `deliverer` is nullable.  `total` is the
decimal total in cents, timestamps are `Nat` instants. -/
structure Order where
  user : Nat
  deliverer : Option Nat
  delivery_address : Nat
  status : Status
  total : Int
  when_placed : Nat
  when_last_update : Nat
deriving DecidableEq, Repr

/-- A validated change-set (`self.data` plus the `intent` key before it is
popped).  For `status`, `deliverer` and `delivery_address` the outer
`Option` records key presence and the inner `Option` a null value, mirroring
`dict.get` together with Python truthiness checks. -/
structure ChangeSet where
  status : Option (Option Status) := none
  deliverer : Option (Option Nat) := none
  delivery_address : Option (Option Nat) := none
  intent : Option Intent := none
deriving DecidableEq, Repr

/-- One `OrderHistory` row as created by `OrderUpdater._log_history`:
the status transitioned to, the acting user, and the action text. -/
structure HistoryEntry where
  status : Status
  performed_by : Option Nat
  action : String
deriving DecidableEq, Repr

/-- The error kinds the updater can raise, keyed by the raise sites in
`order_updater.py`.  `FieldNotPermitted`, `InvalidAddressState`,
`IneligibleIntent` and `InvalidTransition` are `ValidationError`s;
`TransitionForbidden` is the `PermissionDenied` raised at line 150. -/
inductive UpdateError where
  | FieldNotPermitted (fields : List OrderField)
  | InvalidAddressState (current : Status)
  | IneligibleIntent (intent : Intent) (current : Status)
  | InvalidTransition (current target : Status)
  | TransitionForbidden (current target : Status)
deriving DecidableEq, Repr

/-- The mutable state threaded through `OrderUpdater.run`: the in-memory
order instance, the change-set after `intent` was popped, the popped intent,
the acting role and user, the accumulating action description, and the
persisted side of the world (`dbOrder` row and appended `dbHistory` rows). -/
structure St where
  order : Order
  data : ChangeSet
  intent : Option Intent
  role : Role
  userId : Nat
  actionDescription : String
  dbOrder : Order
  dbHistory : List HistoryEntry
  now : Nat
deriving DecidableEq, Repr

/-- `OrderUpdater.STATUS_TRANSITIONS`: maps (current, target) to the roles
allowed to perform the edge, `none` when the edge is absent from the
table (`dict.get(current, {})` followed by key lookup). -/
def STATUS_TRANSITIONS : Status → Status → Option (List Role)
  | .pending, .shipped => some [.admin, .manager]
  | .pending, .underReview => some [.admin, .manager, .customer]
  | .pending, .failed => some [.admin, .manager]
  | .shipped, .delivered => some [.admin, .delivery]
  | .shipped, .underReview => some [.admin, .manager, .delivery]
  | .delivered, .underReview => some [.admin, .manager, .customer]
  | .underReview, .shipped => some [.admin, .manager]
  | .underReview, .cancelled => some [.admin, .manager]
  | .underReview, .refunded => some [.admin, .manager]
  | .underReview, .failed => some [.admin, .manager]
  | .failed, .underReview => some [.admin, .manager, .customer]
  | _, _ => none

/-- `OrderUpdater.INTENTS_ORIGIN_STATUSES`: the statuses from which each
intent may be requested. -/
def INTENTS_ORIGIN_STATUSES : Intent → List Status
  | .cancellation => [.pending, .failed]
  | .refund => [.delivered]

/-- The wire name of an intent (the f-string interpolation of
`self.intent`). -/
def intent_name : Intent → String
  | .cancellation => "cancellation"
  | .refund => "refund"

/-- Modelled from the spec: the human `title` of each `OrderStatus` seed row
(the slugs in the source imply these labels; the seed fixture itself is not
part of `src/`).  Only used inside audit/action strings. -/
def status_title : Status → String
  | .pending => "Pending"
  | .shipped => "Shipped"
  | .delivered => "Delivered"
  | .underReview => "Under Review"
  | .cancelled => "Cancelled"
  | .refunded => "Refunded"
  | .failed => "Failed"

/-- Allowed-field sets per role, from `OrderUpdater._check_allowed_fields`
(the `else` branch covers both `customer` and `anonymous`). -/
def allowed_fields : Role → List OrderField
  | .admin => [.status, .deliverer]
  | .manager => [.status, .deliverer]
  | .delivery => [.status]
  | _ => [.delivery_address, .intent]

/-- `set(self.data.keys())`: the fields present in the change-set (after
`intent` was popped in `__init__`, its key is gone). -/
def attempted_fields (d : ChangeSet) : List OrderField :=
  (if d.status.isSome then [OrderField.status] else []) ++
  (if d.deliverer.isSome then [OrderField.deliverer] else []) ++
  (if d.delivery_address.isSome then [OrderField.delivery_address] else []) ++
  (if d.intent.isSome then [OrderField.intent] else [])

/-- `attempted_fields - allowed_fields`. -/
def disallowed_fields (r : Role) (d : ChangeSet) : List OrderField :=
  (attempted_fields d).filter (fun f => decide (f ∉ allowed_fields r))

/-- `OrderUpdater.__init__`: record the order, role and user, pop `intent`
out of the data, start with an empty action description; nothing has been
persisted yet, so the database row still equals the input order and no
history rows exist. -/
def initSt (role : Role) (userId : Nat) (order : Order) (cs : ChangeSet)
    (now : Nat) : St :=
  { order := order
    data := { cs with intent := none }
    intent := cs.intent
    role := role
    userId := userId
    actionDescription := ""
    dbOrder := order
    dbHistory := []
    now := now }

/-- `OrderUpdater._check_allowed_fields`: reject when the change-set names a
field outside the role's allowed set, listing the offending fields. -/
def check_allowed_fields (s : St) : Except (UpdateError × St) St :=
  let bad := disallowed_fields s.role s.data
  if bad = [] then .ok s else .error (.FieldNotPermitted bad, s)

/-- `OrderUpdater._handle_deliverer`: a falsy (`None`/absent) deliverer is a
no-op; a new deliverer different from the current one is assigned, and when
the current status is pending or under-review the proposed target status in
the change-set is forced to shipped. -/
def handle_deliverer (s : St) : Except (UpdateError × St) St :=
  match s.data.deliverer.getD none with
  | none => .ok s
  | some d =>
    if some d = s.order.deliverer then .ok s
    else
      let o := { s.order with deliverer := some d }
      if s.order.status = .pending ∨ s.order.status = .underReview then
        .ok { s with order := o, data := { s.data with status := some (some .shipped) } }
      else
        .ok { s with order := o }

/-- `OrderUpdater._handle_delivery_address`: a falsy or unchanged address is
a no-op; otherwise the change is only permitted from pending or failed, and
a change made while failed forces the proposed target status to
under-review. -/
def handle_delivery_address (s : St) : Except (UpdateError × St) St :=
  match s.data.delivery_address.getD none with
  | none => .ok s
  | some a =>
    if a = s.order.delivery_address then .ok s
    else if s.order.status = .pending ∨ s.order.status = .failed then
      let o := { s.order with delivery_address := a }
      if s.order.status = .failed then
        .ok { s with order := o, data := { s.data with status := some (some .underReview) } }
      else
        .ok { s with order := o }
    else
      .error (.InvalidAddressState s.order.status, s)

/-- `OrderUpdater._handle_intent`: no intent is a no-op; an intent outside
its eligible origin statuses is rejected reporting the current status; an
eligible one forces the proposed target status to under-review and sets the
action description naming the intent. -/
def handle_intent (s : St) : Except (UpdateError × St) St :=
  match s.intent with
  | none => .ok s
  | some i =>
    if s.order.status ∈ INTENTS_ORIGIN_STATUSES i then
      .ok { s with
        data := { s.data with status := some (some .underReview) }
        actionDescription :=
          "Customer requested " ++ intent_name i ++ ". Status transitioned to Under Review." }
    else
      .error (.IneligibleIntent i s.order.status, s)

/-- The `OrderHistory` row created by `OrderUpdater._log_history` for a
transition to `t`. -/
def log_entry (s : St) (t : Status) : HistoryEntry :=
  { status := t
    performed_by := some s.userId
    action :=
      if s.actionDescription = "" then "Status transitioned to " ++ status_title t
      else s.actionDescription }

/-- `OrderUpdater._handle_status_transition`: an absent or unchanged target
is a no-op; a missing edge raises InvalidTransition; a role outside the
edge's set raises TransitionForbidden; otherwise the order's status and
last-update instant are set and exactly one history row is persisted. -/
def handle_status_transition (s : St) : Except (UpdateError × St) St :=
  match s.data.status.getD none with
  | none => .ok s
  | some t =>
    if t = s.order.status then .ok s
    else
      match STATUS_TRANSITIONS s.order.status t with
      | none => .error (.InvalidTransition s.order.status t, s)
      | some roles =>
        if s.role ∈ roles then
          .ok { s with
            order := { s.order with status := t, when_last_update := s.now }
            dbHistory := s.dbHistory ++ [log_entry s t] }
        else
          .error (.TransitionForbidden s.order.status t, s)

/-- `self.order.save()`: persist the in-memory order.  The model field
`when_last_update` has `auto_now=True` (`store/models.py` line 119), so the
save refreshes the instance's and the row's last-update instant to now. -/
def save_order (s : St) : Except (UpdateError × St) St :=
  let o := { s.order with when_last_update := s.now }
  .ok { s with order := o, dbOrder := o }

/-- `OrderUpdater.run`: the full update lifecycle in order — field
permission validation, deliverer assignment, address change, intent
handling, status transition enforcement and logging, then save. -/
def run (role : Role) (userId : Nat) (order : Order) (cs : ChangeSet)
    (now : Nat) : Except (UpdateError × St) St :=
  (check_allowed_fields (initSt role userId order cs now)).bind fun s1 =>
    (handle_deliverer s1).bind fun s2 =>
      (handle_delivery_address s2).bind fun s3 =>
        (handle_intent s3).bind fun s4 =>
          (handle_status_transition s4).bind save_order

/-- A sample pending order used to instantiate theorems at concrete
inputs. -/
def order0 : Order :=
  { user := 1, deliverer := none, delivery_address := 10, status := .pending
    total := 2599, when_placed := 0, when_last_update := 0 }

/-- A sample cancelled order. -/
def order_cancelled : Order := { order0 with status := .cancelled }

/-- A sample delivered order. -/
def order_delivered : Order := { order0 with status := .delivered }

/-- A sample failed order. -/
def order_failed : Order := { order0 with status := .failed }

theorem check_allowed_fields_error_eq {s : St} {e : UpdateError} {s' : St}
    (h : check_allowed_fields s = .error (e, s')) : s' = s := by
  by_cases hbad : disallowed_fields s.role s.data = [] <;>
    simp_all [check_allowed_fields]

theorem check_allowed_fields_ok_eq {s s' : St}
    (h : check_allowed_fields s = .ok s') : s' = s := by
  by_cases hbad : disallowed_fields s.role s.data = [] <;>
    simp_all [check_allowed_fields]

theorem handle_deliverer_no_error {s : St} {x : UpdateError × St}
    (h : handle_deliverer s = .error x) : False := by
  unfold handle_deliverer at h
  split at h <;> [skip; split at h <;> [skip; split at h]] <;> simp_all

theorem handle_deliverer_ok_frame {s s' : St}
    (h : handle_deliverer s = .ok s') :
    s'.dbOrder = s.dbOrder ∧ s'.dbHistory = s.dbHistory ∧
    s'.order.user = s.order.user ∧ s'.order.total = s.order.total ∧
    s'.order.when_placed = s.order.when_placed := by
  unfold handle_deliverer at h
  split at h <;> [skip; split at h <;> [skip; split at h]] <;>
    simp_all <;> subst h <;> simp

theorem handle_delivery_address_error_eq {s : St} {e : UpdateError} {s' : St}
    (h : handle_delivery_address s = .error (e, s')) : s' = s := by
  unfold handle_delivery_address at h
  split at h <;> [skip; split at h <;> [skip; split at h <;> [split at h; skip]]] <;>
    simp_all

theorem handle_delivery_address_ok_frame {s s' : St}
    (h : handle_delivery_address s = .ok s') :
    s'.dbOrder = s.dbOrder ∧ s'.dbHistory = s.dbHistory ∧
    s'.order.user = s.order.user ∧ s'.order.total = s.order.total ∧
    s'.order.when_placed = s.order.when_placed := by
  unfold handle_delivery_address at h
  split at h <;> [skip; split at h <;> [skip; split at h <;> [split at h; skip]]] <;>
    simp_all <;> subst h <;> simp

theorem handle_intent_error_eq {s : St} {e : UpdateError} {s' : St}
    (h : handle_intent s = .error (e, s')) : s' = s := by
  unfold handle_intent at h
  split at h <;> [skip; split at h] <;> simp_all

theorem handle_intent_ok_frame {s s' : St}
    (h : handle_intent s = .ok s') :
    s'.dbOrder = s.dbOrder ∧ s'.dbHistory = s.dbHistory ∧
    s'.order = s.order := by
  unfold handle_intent at h
  split at h <;> [skip; split at h] <;> simp_all <;> subst h <;> simp

theorem handle_status_transition_error_eq {s : St} {e : UpdateError} {s' : St}
    (h : handle_status_transition s = .error (e, s')) : s' = s := by
  unfold handle_status_transition at h
  split at h <;>
    [skip;
     split at h <;> [skip; split at h <;> [skip; split at h]]] <;>
    simp_all

theorem handle_status_transition_ok_frame {s s' : St}
    (h : handle_status_transition s = .ok s') :
    s'.dbOrder = s.dbOrder ∧
    s'.order.user = s.order.user ∧ s'.order.total = s.order.total ∧
    s'.order.when_placed = s.order.when_placed := by
  unfold handle_status_transition at h
  split at h <;>
    [skip;
     split at h <;> [skip; split at h <;> [skip; split at h]]] <;>
    simp_all <;> subst h <;> simp

/-- C1: for every edge (current, target) of `STATUS_TRANSITIONS` and every
role, committing a proposed target different from the current status
succeeds iff the role is in the edge's authorized set; a role outside the
set is rejected with `TransitionForbidden`, a kind distinct from
`InvalidTransition`; on success the order's status becomes the target, its
last-update instant is refreshed, and exactly one audit entry is
appended. -/
theorem C1_transition_edge_role_gate (s : St) (t : Status) (rs : List Role)
    (hst : s.data.status = some (some t))
    (hne : t ≠ s.order.status)
    (hedge : STATUS_TRANSITIONS s.order.status t = some rs) :
    (s.role ∈ rs →
      handle_status_transition s =
        .ok { s with
          order := { s.order with status := t, when_last_update := s.now }
          dbHistory := s.dbHistory ++ [log_entry s t] }) ∧
    (s.role ∉ rs →
      handle_status_transition s =
        .error (.TransitionForbidden s.order.status t, s)) ∧
    (∀ c u, UpdateError.TransitionForbidden s.order.status t ≠
      UpdateError.InvalidTransition c u) := by
  refine ⟨fun hmem => ?_, fun hmem => ?_, fun c u h => by cases h⟩ <;>
    simp [handle_status_transition, hst, hne, hedge, hmem]

/-- Witness for C1: a manager moving a pending order to shipped commits,
and a customer attempting the same edge is rejected with
`TransitionForbidden`. -/
theorem C1_witness :
    (handle_status_transition
        (initSt .manager 2 order0 { status := some (some .shipped) } 5) =
      .ok { initSt .manager 2 order0 { status := some (some .shipped) } 5 with
        order := { order0 with status := .shipped, when_last_update := 5 }
        dbHistory := [log_entry
          (initSt .manager 2 order0 { status := some (some .shipped) } 5) .shipped] }) ∧
    (handle_status_transition
        (initSt .customer 2 order0 { status := some (some .shipped) } 5) =
      .error (.TransitionForbidden .pending .shipped,
        initSt .customer 2 order0 { status := some (some .shipped) } 5)) := by
  constructor
  · exact (C1_transition_edge_role_gate
      (initSt .manager 2 order0 { status := some (some .shipped) } 5)
      .shipped [.admin, .manager] rfl (by decide) rfl).1 (by decide)
  · exact (C1_transition_edge_role_gate
      (initSt .customer 2 order0 { status := some (some .shipped) } 5)
      .shipped [.admin, .manager] rfl (by decide) rfl).2.1 (by decide)

/-- C2: for every role and every (current, target) pair with target
different from current that has no edge in the transition table, the commit
is rejected with `InvalidTransition` carrying both statuses, independently
of the role; in particular cancelled and refunded have no outgoing
edges. -/
theorem C2_no_edge_invalid_transition (s : St) (t : Status)
    (hst : s.data.status = some (some t))
    (hne : t ≠ s.order.status)
    (hmiss : STATUS_TRANSITIONS s.order.status t = none) :
    handle_status_transition s =
      .error (.InvalidTransition s.order.status t, s) ∧
    (∀ u, STATUS_TRANSITIONS .cancelled u = none ∧
      STATUS_TRANSITIONS .refunded u = none) := by
  refine ⟨?_, fun u => by cases u <;> exact ⟨rfl, rfl⟩⟩
  simp [handle_status_transition, hst, hne, hmiss]

/-- Witness for C2: an admin trying to move a cancelled order back to
pending is rejected with `InvalidTransition`. -/
theorem C2_witness :
    handle_status_transition
        (initSt .admin 2 order_cancelled { status := some (some .pending) } 5) =
      .error (.InvalidTransition .cancelled .pending,
        initSt .admin 2 order_cancelled { status := some (some .pending) } 5) :=
  (C2_no_edge_invalid_transition
    (initSt .admin 2 order_cancelled { status := some (some .pending) } 5)
    .pending rfl (by decide) rfl).1

theorem run_error_state {role : Role} {userId : Nat} {order : Order}
    {cs : ChangeSet} {now : Nat} {e : UpdateError} {s' : St}
    (h : run role userId order cs now = .error (e, s')) :
    s'.dbOrder = order ∧ s'.dbHistory = [] := by
  unfold run at h
  cases h1 : check_allowed_fields (initSt role userId order cs now) with
  | error x =>
    rw [h1] at h
    simp only [Except.bind] at h
    injection h with hx
    subst hx
    have e1 := check_allowed_fields_error_eq h1
    subst e1
    exact ⟨rfl, rfl⟩
  | ok s1 =>
    have e1 := check_allowed_fields_ok_eq h1
    rw [h1] at h
    simp only [Except.bind] at h
    cases h2 : handle_deliverer s1 with
    | error x => exact (handle_deliverer_no_error h2).elim
    | ok s2 =>
      have f2 := handle_deliverer_ok_frame h2
      rw [h2] at h
      simp only [Except.bind] at h
      cases h3 : handle_delivery_address s2 with
      | error x =>
        rw [h3] at h
        simp only [Except.bind] at h
        injection h with hx
        subst hx
        have e3 := handle_delivery_address_error_eq h3
        subst e3
        exact ⟨by rw [f2.1, e1]; rfl, by rw [f2.2.1, e1]; rfl⟩
      | ok s3 =>
        have f3 := handle_delivery_address_ok_frame h3
        rw [h3] at h
        simp only [Except.bind] at h
        cases h4 : handle_intent s3 with
        | error x =>
          rw [h4] at h
          simp only [Except.bind] at h
          injection h with hx
          subst hx
          have e4 := handle_intent_error_eq h4
          subst e4
          exact ⟨by rw [f3.1, f2.1, e1]; rfl, by rw [f3.2.1, f2.2.1, e1]; rfl⟩
        | ok s4 =>
          have f4 := handle_intent_ok_frame h4
          rw [h4] at h
          simp only [Except.bind] at h
          cases h5 : handle_status_transition s4 with
          | error x =>
            rw [h5] at h
            simp only [Except.bind] at h
            injection h with hx
            subst hx
            have e5 := handle_status_transition_error_eq h5
            subst e5
            exact ⟨by rw [f4.1, f3.1, f2.1, e1]; rfl, by rw [f4.2.1, f3.2.1, f2.2.1, e1]; rfl⟩
          | ok s5 =>
            rw [h5] at h
            simp only [Except.bind] at h
            simp [save_order] at h

theorem run_ok_state {role : Role} {userId : Nat} {order : Order}
    {cs : ChangeSet} {now : Nat} {s' : St}
    (h : run role userId order cs now = .ok s') :
    s'.dbOrder = s'.order ∧ s'.order.user = order.user ∧
    s'.order.total = order.total ∧ s'.order.when_placed = order.when_placed := by
  unfold run at h
  cases h1 : check_allowed_fields (initSt role userId order cs now) with
  | error x =>
    rw [h1] at h
    simp only [Except.bind] at h
    cases h
  | ok s1 =>
    have e1 := check_allowed_fields_ok_eq h1
    rw [h1] at h
    simp only [Except.bind] at h
    cases h2 : handle_deliverer s1 with
    | error x => exact (handle_deliverer_no_error h2).elim
    | ok s2 =>
      have f2 := handle_deliverer_ok_frame h2
      rw [h2] at h
      simp only [Except.bind] at h
      cases h3 : handle_delivery_address s2 with
      | error x =>
        rw [h3] at h
        simp only [Except.bind] at h
        cases h
      | ok s3 =>
        have f3 := handle_delivery_address_ok_frame h3
        rw [h3] at h
        simp only [Except.bind] at h
        cases h4 : handle_intent s3 with
        | error x =>
          rw [h4] at h
          simp only [Except.bind] at h
          cases h
        | ok s4 =>
          have f4 := handle_intent_ok_frame h4
          rw [h4] at h
          simp only [Except.bind] at h
          cases h5 : handle_status_transition s4 with
          | error x =>
            rw [h5] at h
            simp only [Except.bind] at h
            cases h
          | ok s5 =>
            have f5 := handle_status_transition_ok_frame h5
            rw [h5] at h
            simp only [Except.bind] at h
            simp only [save_order] at h
            injection h with hx
            subst hx
            refine ⟨rfl, ?_, ?_, ?_⟩
            · show s5.order.user = order.user
              rw [f5.2.1, f4.2.2, f3.2.2.1, f2.2.2.1, e1]; rfl
            · show s5.order.total = order.total
              rw [f5.2.2.1, f4.2.2, f3.2.2.2.1, f2.2.2.2.1, e1]; rfl
            · show s5.order.when_placed = order.when_placed
              rw [f5.2.2.2, f4.2.2, f3.2.2.2.2, f2.2.2.2.2, e1]; rfl

/-- A sample shipped order. -/
def order_shipped : Order := { order0 with status := .shipped }

/-- C8: the update pipeline runs field guard, deliverer handler, address
handler, intent resolver, transition commit and persist in that fixed
order with early termination; whenever any stage rejects, the persisted
order row is unchanged and no audit entry has been created, and on success
the persisted row is exactly the in-memory order written by the final save
— the single commit point. -/
theorem C8_rejection_persists_nothing (role : Role) (userId : Nat)
    (order : Order) (cs : ChangeSet) (now : Nat) :
    (∀ e s', run role userId order cs now = .error (e, s') →
      s'.dbOrder = order ∧ s'.dbHistory = []) ∧
    (∀ s', run role userId order cs now = .ok s' → s'.dbOrder = s'.order) :=
  ⟨fun _ _ h => run_error_state h, fun _ h => (run_ok_state h).1⟩

/-- Witness for C8: a customer change-set naming `deliverer` is rejected
and the abort state shows the untouched order row and empty audit log. -/
theorem C8_witness :
    (initSt .customer 1 order0 { deliverer := some (some 7) } 5).dbOrder = order0 ∧
    (initSt .customer 1 order0 { deliverer := some (some 7) } 5).dbHistory = [] :=
  (C8_rejection_persists_nothing .customer 1 order0 { deliverer := some (some 7) } 5).1
    (.FieldNotPermitted [.deliverer])
    (initSt .customer 1 order0 { deliverer := some (some 7) } 5) rfl

/-- C10: whether a run succeeds or rejects, the order's owning customer,
total and placement timestamp are never modified: on success the persisted
row keeps them, and on rejection the persisted row is the original
order. -/
theorem C10_total_owner_placed_immutable (role : Role) (userId : Nat)
    (order : Order) (cs : ChangeSet) (now : Nat) :
    (∀ s', run role userId order cs now = .ok s' →
      s'.dbOrder.user = order.user ∧ s'.dbOrder.total = order.total ∧
      s'.dbOrder.when_placed = order.when_placed) ∧
    (∀ e s', run role userId order cs now = .error (e, s') →
      s'.dbOrder = order) := by
  constructor
  · intro s' h
    have hk := run_ok_state h
    rw [hk.1]
    exact ⟨hk.2.1, hk.2.2.1, hk.2.2.2⟩
  · exact fun e s' h => (run_error_state h).1

/-- Witness for C10: a customer's address change on a shipped order is
rejected, and the persisted row is the original order. -/
theorem C10_witness :
    (initSt .customer 1 order_shipped { delivery_address := some (some 99) } 5).dbOrder =
      order_shipped :=
  (C10_total_owner_placed_immutable .customer 1 order_shipped
      { delivery_address := some (some 99) } 5).2
    (.InvalidAddressState .shipped)
    (initSt .customer 1 order_shipped { delivery_address := some (some 99) } 5) rfl

/-- C4: a change-set naming any field outside the role's allowed set is
rejected before any handler runs, with an error naming every offending
field; the rejection is the same for every order state, and no field of the
change-set — permitted ones included — is applied: the persisted row, the
in-memory order and the audit log are untouched. -/
theorem C4_field_guard_rejects_wholesale (role : Role) (userId : Nat)
    (order : Order) (cs : ChangeSet) (now : Nat)
    (h : disallowed_fields role { cs with intent := none } ≠ []) :
    run role userId order cs now =
      .error (.FieldNotPermitted (disallowed_fields role { cs with intent := none }),
              initSt role userId order cs now) ∧
    (initSt role userId order cs now).dbOrder = order ∧
    (initSt role userId order cs now).order = order ∧
    (initSt role userId order cs now).dbHistory = [] := by
  refine ⟨?_, rfl, rfl, rfl⟩
  have hc : check_allowed_fields (initSt role userId order cs now) =
      .error (.FieldNotPermitted (disallowed_fields role { cs with intent := none }),
              initSt role userId order cs now) := by
    unfold check_allowed_fields initSt
    simp only []
    rw [if_neg h]
  unfold run
  rw [hc]
  rfl

/-- Witness for C4: a customer including `deliverer` alongside the
permitted `delivery_address` is rejected wholesale with an error naming
exactly `deliverer`. -/
theorem C4_witness :
    run .customer 1 order0
        { deliverer := some (some 7), delivery_address := some (some 3) } 5 =
      .error (.FieldNotPermitted
          (disallowed_fields .customer
            { deliverer := some (some 7), delivery_address := some (some 3),
              intent := none }),
        initSt .customer 1 order0
          { deliverer := some (some 7), delivery_address := some (some 3) } 5) ∧
    disallowed_fields .customer
        { deliverer := some (some 7), delivery_address := some (some 3),
          intent := none } = [.deliverer] :=
  ⟨(C4_field_guard_rejects_wholesale .customer 1 order0
      { deliverer := some (some 7), delivery_address := some (some 3) } 5
      (by decide)).1, by decide⟩

/-- Counterexample to C3 as stated: an admin proposing the order's current
status runs to success without status change or audit entry, yet the
persisted last-update timestamp changes, because `Order.when_last_update`
has `auto_now=True` and `run` always ends in `order.save()`. -/
theorem C3_counterexample :
    ∃ s', run .admin 1 order0 { status := some (some .pending) } 5 = .ok s' ∧
      s'.dbOrder.status = order0.status ∧ s'.dbHistory = [] ∧
      s'.dbOrder.when_last_update ≠ order0.when_last_update :=
  ⟨_, rfl, rfl, rfl, by decide⟩

/-- C3 (amended): proposing a target equal to the current status never
changes the status and never creates an audit entry, and a rejected run
leaves the persisted row untouched; but when the run succeeds (which it
does for the roles allowed to submit `status`: admin, manager, delivery),
the save step's auto-now behaviour refreshes the persisted last-update
timestamp instead of leaving it unchanged. -/
theorem C3_same_status_noop_except_autonow (role : Role) (userId : Nat)
    (order : Order) (now : Nat) :
    (∀ s', run role userId order { status := some (some order.status) } now = .ok s' →
      s'.dbOrder.status = order.status ∧ s'.dbHistory = [] ∧
      s'.dbOrder.when_last_update = now) ∧
    (∀ e s', run role userId order { status := some (some order.status) } now =
        .error (e, s') → s'.dbOrder = order ∧ s'.dbHistory = []) ∧
    ((role = .admin ∨ role = .manager ∨ role = .delivery) →
      ∃ s', run role userId order { status := some (some order.status) } now = .ok s') := by
  have hrun : (role = .admin ∨ role = .manager ∨ role = .delivery) →
      run role userId order { status := some (some order.status) } now =
        .ok { order := { order with when_last_update := now }
              data := { status := some (some order.status) }
              intent := none, role := role, userId := userId
              actionDescription := ""
              dbOrder := { order with when_last_update := now }
              dbHistory := [], now := now } := by
    rintro (rfl | rfl | rfl) <;>
      simp [run, initSt, check_allowed_fields, disallowed_fields,
        attempted_fields, allowed_fields, handle_deliverer,
        handle_delivery_address, handle_intent, handle_status_transition,
        save_order, Except.bind]
  refine ⟨?_, fun e s' h => run_error_state h, fun hr => ⟨_, hrun hr⟩⟩
  intro s' h
  by_cases hr : role = .admin ∨ role = .manager ∨ role = .delivery
  · rw [hrun hr] at h
    injection h with h
    subst h
    exact ⟨rfl, rfl, rfl⟩
  · exfalso
    cases role with
    | admin => exact hr (Or.inl rfl)
    | manager => exact hr (Or.inr (Or.inl rfl))
    | delivery => exact hr (Or.inr (Or.inr rfl))
    | customer =>
      simp [run, initSt, check_allowed_fields, disallowed_fields,
        attempted_fields, allowed_fields, Except.bind] at h
    | anonymous =>
      simp [run, initSt, check_allowed_fields, disallowed_fields,
        attempted_fields, allowed_fields, Except.bind] at h

/-- Witness for C3 (amended): a manager proposing the current status on a
pending order still runs to success. -/
theorem C3_witness :
    ∃ s', run .manager 1 order0 { status := some (some order0.status) } 7 = .ok s' :=
  (C3_same_status_noop_except_autonow .manager 1 order0 7).2.2 (Or.inr (Or.inl rfl))

/-- C5: for an admin or manager, proposing a deliverer different from the
current one while the order is pending or under-review assigns the
deliverer and forces the committed target status to shipped — overriding
any explicit status value in the change-set — ending with exactly one audit
entry. -/
theorem C5_deliverer_assignment_forces_shipped (role : Role) (userId : Nat)
    (order : Order) (d : Nat) (sOpt : Option (Option Status)) (now : Nat)
    (hrole : role = .admin ∨ role = .manager)
    (hstat : order.status = .pending ∨ order.status = .underReview)
    (hnew : some d ≠ order.deliverer) :
    run role userId order { status := sOpt, deliverer := some (some d) } now =
      .ok { order := { order with deliverer := some d, status := .shipped, when_last_update := now }
            data := { status := some (some .shipped), deliverer := some (some d) }
            intent := none, role := role, userId := userId
            actionDescription := ""
            dbOrder := { order with deliverer := some d, status := .shipped, when_last_update := now }
            dbHistory := [{ status := .shipped, performed_by := some userId, action := "Status transitioned to " ++ status_title .shipped }]
            now := now } := by
  rcases hrole with rfl | rfl <;> rcases hstat with h | h <;> rcases sOpt with _ | s0 <;>
    simp [run, initSt, check_allowed_fields, disallowed_fields, attempted_fields,
      allowed_fields, handle_deliverer, handle_delivery_address, handle_intent,
      handle_status_transition, save_order, log_entry, STATUS_TRANSITIONS,
      Except.bind, h, hnew]

/-- Witness for C5: a manager assigning deliverer 7 to the pending `order0`
ends with the order shipped and one audit entry. -/
theorem C5_witness :
    run .manager 2 order0 { deliverer := some (some 7) } 5 =
      .ok { order := { order0 with deliverer := some 7, status := .shipped, when_last_update := 5 }
            data := { status := some (some .shipped), deliverer := some (some 7) }
            intent := none, role := .manager, userId := 2
            actionDescription := ""
            dbOrder := { order0 with deliverer := some 7, status := .shipped, when_last_update := 5 }
            dbHistory := [{ status := .shipped, performed_by := some 2, action := "Status transitioned to " ++ status_title .shipped }]
            now := 5 } :=
  C5_deliverer_assignment_forces_shipped .manager 2 order0 7 none 5
    (Or.inr rfl) (Or.inl rfl) (by decide)

/-- C6: a cancellation intent is eligible exactly from pending or failed
and a refund intent exactly from delivered; an ineligible intent is
rejected with `IneligibleIntent` reporting the current status and nothing
is persisted, while an eligible intent forces the committed target to
under-review and the single audit entry's action text names the intent
rather than being a plain status-edit note. -/
theorem C6_intent_eligibility_and_review (i : Intent) (userId : Nat)
    (order : Order) (now : Nat) :
    (order.status ∉ INTENTS_ORIGIN_STATUSES i →
      run .customer userId order { intent := some i } now =
        .error (.IneligibleIntent i order.status,
          initSt .customer userId order { intent := some i } now) ∧
      (initSt .customer userId order { intent := some i } now).dbOrder = order ∧
      (initSt .customer userId order { intent := some i } now).dbHistory = []) ∧
    (order.status ∈ INTENTS_ORIGIN_STATUSES i →
      run .customer userId order { intent := some i } now =
        .ok { order := { order with status := .underReview, when_last_update := now }
              data := { status := some (some .underReview) }
              intent := some i, role := .customer, userId := userId
              actionDescription := "Customer requested " ++ intent_name i ++ ". Status transitioned to Under Review."
              dbOrder := { order with status := .underReview, when_last_update := now }
              dbHistory := [{ status := .underReview, performed_by := some userId, action := "Customer requested " ++ intent_name i ++ ". Status transitioned to Under Review." }]
              now := now } ∧
      (∃ pre post, ("Customer requested " ++ intent_name i ++ ". Status transitioned to Under Review.") = pre ++ intent_name i ++ post)) := by
  constructor
  · intro h
    refine ⟨?_, rfl, rfl⟩
    simp [run, initSt, check_allowed_fields, disallowed_fields, attempted_fields,
      allowed_fields, handle_deliverer, handle_delivery_address, handle_intent,
      Except.bind, h]
  · intro h
    refine ⟨?_, ⟨"Customer requested ", ". Status transitioned to Under Review.", rfl⟩⟩
    cases i with
    | cancellation =>
      simp only [INTENTS_ORIGIN_STATUSES, List.mem_cons, List.mem_singleton,
        List.not_mem_nil, or_false] at h
      rcases h with h | h <;>
        simp [run, initSt, check_allowed_fields, disallowed_fields, attempted_fields,
          allowed_fields, handle_deliverer, handle_delivery_address, handle_intent,
          handle_status_transition, save_order, log_entry, STATUS_TRANSITIONS,
          INTENTS_ORIGIN_STATUSES, intent_name, Except.bind, h]
    | refund =>
      simp only [INTENTS_ORIGIN_STATUSES, List.mem_singleton] at h
      simp [run, initSt, check_allowed_fields, disallowed_fields, attempted_fields,
        allowed_fields, handle_deliverer, handle_delivery_address, handle_intent,
        handle_status_transition, save_order, log_entry, STATUS_TRANSITIONS,
        INTENTS_ORIGIN_STATUSES, intent_name, Except.bind, h]

/-- Witness for C6: a customer's cancellation intent on a delivered order
is rejected with `IneligibleIntent`, while on the pending `order0` it
succeeds, ending under-review with one audit entry naming the intent. -/
theorem C6_witness :
    (run .customer 3 order_delivered { intent := some .cancellation } 5 =
      .error (.IneligibleIntent .cancellation .delivered,
        initSt .customer 3 order_delivered { intent := some .cancellation } 5)) ∧
    (run .customer 3 order0 { intent := some .cancellation } 5 =
      .ok { order := { order0 with status := .underReview, when_last_update := 5 }
            data := { status := some (some .underReview) }
            intent := some .cancellation, role := .customer, userId := 3
            actionDescription := "Customer requested " ++ intent_name .cancellation ++ ". Status transitioned to Under Review."
            dbOrder := { order0 with status := .underReview, when_last_update := 5 }
            dbHistory := [{ status := .underReview, performed_by := some 3, action := "Customer requested " ++ intent_name .cancellation ++ ". Status transitioned to Under Review." }]
            now := 5 }) :=
  ⟨((C6_intent_eligibility_and_review .cancellation 3 order_delivered 5).1 (by decide)).1,
   ((C6_intent_eligibility_and_review .cancellation 3 order0 5).2 (by decide)).1⟩

/-- C7: a customer proposing a delivery address different from the current
one is rejected with `InvalidAddressState` reporting the current status
whenever that status is neither pending nor failed, with nothing persisted;
from pending the address is updated with no status change and no audit
entry; from failed the address is updated and the same update additionally
commits a forced transition to under-review. -/
theorem C7_address_change_gated_by_status (userId : Nat) (order : Order)
    (a : Nat) (now : Nat) (hne : a ≠ order.delivery_address) :
    (¬(order.status = .pending ∨ order.status = .failed) →
      run .customer userId order { delivery_address := some (some a) } now =
        .error (.InvalidAddressState order.status,
          initSt .customer userId order { delivery_address := some (some a) } now) ∧
      (initSt .customer userId order { delivery_address := some (some a) } now).dbOrder = order ∧
      (initSt .customer userId order { delivery_address := some (some a) } now).dbHistory = []) ∧
    (order.status = .pending →
      run .customer userId order { delivery_address := some (some a) } now =
        .ok { order := { order with delivery_address := a, when_last_update := now }
              data := { delivery_address := some (some a) }
              intent := none, role := .customer, userId := userId
              actionDescription := ""
              dbOrder := { order with delivery_address := a, when_last_update := now }
              dbHistory := [], now := now }) ∧
    (order.status = .failed →
      run .customer userId order { delivery_address := some (some a) } now =
        .ok { order := { order with delivery_address := a, status := .underReview, when_last_update := now }
              data := { status := some (some .underReview), delivery_address := some (some a) }
              intent := none, role := .customer, userId := userId
              actionDescription := ""
              dbOrder := { order with delivery_address := a, status := .underReview, when_last_update := now }
              dbHistory := [{ status := .underReview, performed_by := some userId, action := "Status transitioned to " ++ status_title .underReview }]
              now := now }) := by
  refine ⟨fun h => ⟨?_, rfl, rfl⟩, fun h => ?_, fun h => ?_⟩ <;>
    simp [run, initSt, check_allowed_fields, disallowed_fields, attempted_fields,
      allowed_fields, handle_deliverer, handle_delivery_address, handle_intent,
      handle_status_transition, save_order, log_entry, STATUS_TRANSITIONS,
      Except.bind, h, hne]

/-- Witness for C7: an address change on the failed order succeeds and
forces under-review in the same update; on the shipped order it is
rejected with `InvalidAddressState`. -/
theorem C7_witness :
    (run .customer 1 order_failed { delivery_address := some (some 99) } 5 =
      .ok { order := { order_failed with delivery_address := 99, status := .underReview, when_last_update := 5 }
            data := { status := some (some .underReview), delivery_address := some (some 99) }
            intent := none, role := .customer, userId := 1
            actionDescription := ""
            dbOrder := { order_failed with delivery_address := 99, status := .underReview, when_last_update := 5 }
            dbHistory := [{ status := .underReview, performed_by := some 1, action := "Status transitioned to " ++ status_title .underReview }]
            now := 5 }) ∧
    (run .customer 1 order_shipped { delivery_address := some (some 99) } 5 =
      .error (.InvalidAddressState .shipped,
        initSt .customer 1 order_shipped { delivery_address := some (some 99) } 5)) :=
  ⟨(C7_address_change_gated_by_status 1 order_failed 99 5 (by decide)).2.2 rfl,
   ((C7_address_change_gated_by_status 1 order_shipped 99 5 (by decide)).1 (by decide)).1⟩

/-- C9: the `intent` entry is popped out of the change-set before the
field-authorization check, so a change-set consisting of an intent is never
rejected with `FieldNotPermitted` for any role; the intent handler makes no
role check of its own, so an eligible intent from any role forces the
committed target to under-review, gated only by the transition table's role
set on the resulting edge to under-review. -/
theorem C9_intent_bypasses_field_guard (role : Role) (userId : Nat)
    (order : Order) (i : Intent) (now : Nat) :
    (∀ fs x, run role userId order { intent := some i } now ≠
      .error (.FieldNotPermitted fs, x)) ∧
    (order.status ∈ INTENTS_ORIGIN_STATUSES i →
      ∀ rs, STATUS_TRANSITIONS order.status .underReview = some rs →
        (role ∈ rs →
          run role userId order { intent := some i } now =
            .ok { order := { order with status := .underReview, when_last_update := now }
                  data := { status := some (some .underReview) }
                  intent := some i, role := role, userId := userId
                  actionDescription := "Customer requested " ++ intent_name i ++ ". Status transitioned to Under Review."
                  dbOrder := { order with status := .underReview, when_last_update := now }
                  dbHistory := [{ status := .underReview, performed_by := some userId, action := "Customer requested " ++ intent_name i ++ ". Status transitioned to Under Review." }]
                  now := now }) ∧
        (role ∉ rs →
          run role userId order { intent := some i } now =
            .error (.TransitionForbidden order.status .underReview,
              { order := order
                data := { status := some (some .underReview) }
                intent := some i, role := role, userId := userId
                actionDescription := "Customer requested " ++ intent_name i ++ ". Status transitioned to Under Review."
                dbOrder := order, dbHistory := [], now := now }))) := by
  constructor
  · intro fs x hcontra
    by_cases hm : order.status ∈ INTENTS_ORIGIN_STATUSES i
    · cases i with
      | cancellation =>
        simp only [INTENTS_ORIGIN_STATUSES, List.mem_cons, List.mem_singleton,
          List.not_mem_nil, or_false] at hm
        rcases hm with h | h <;>
          by_cases hr : role ∈ ([.admin, .manager, .customer] : List Role) <;>
            simp [run, initSt, check_allowed_fields, disallowed_fields,
              attempted_fields, allowed_fields, handle_deliverer,
              handle_delivery_address, handle_intent, handle_status_transition,
              save_order, log_entry, STATUS_TRANSITIONS, INTENTS_ORIGIN_STATUSES,
              intent_name, Except.bind, h, hr] at hcontra
      | refund =>
        simp only [INTENTS_ORIGIN_STATUSES, List.mem_singleton] at hm
        by_cases hr : role ∈ ([.admin, .manager, .customer] : List Role) <;>
          simp [run, initSt, check_allowed_fields, disallowed_fields,
            attempted_fields, allowed_fields, handle_deliverer,
            handle_delivery_address, handle_intent, handle_status_transition,
            save_order, log_entry, STATUS_TRANSITIONS, INTENTS_ORIGIN_STATUSES,
            intent_name, Except.bind, hm, hr] at hcontra
    · simp [run, initSt, check_allowed_fields, disallowed_fields,
        attempted_fields, allowed_fields, handle_deliverer,
        handle_delivery_address, handle_intent, Except.bind, hm] at hcontra
  · intro hm rs hrs
    cases i with
    | cancellation =>
      simp only [INTENTS_ORIGIN_STATUSES, List.mem_cons, List.mem_singleton,
        List.not_mem_nil, or_false] at hm
      rcases hm with h | h <;>
        rw [h] at hrs <;>
        simp only [STATUS_TRANSITIONS, Option.some.injEq] at hrs <;>
        subst hrs <;>
        refine ⟨fun hr => ?_, fun hr => ?_⟩ <;>
          simp [run, initSt, check_allowed_fields, disallowed_fields,
            attempted_fields, allowed_fields, handle_deliverer,
            handle_delivery_address, handle_intent, handle_status_transition,
            save_order, log_entry, STATUS_TRANSITIONS, INTENTS_ORIGIN_STATUSES,
            intent_name, Except.bind, h, hr]
    | refund =>
      simp only [INTENTS_ORIGIN_STATUSES, List.mem_singleton] at hm
      rw [hm] at hrs
      simp only [STATUS_TRANSITIONS, Option.some.injEq] at hrs
      subst hrs
      refine ⟨fun hr => ?_, fun hr => ?_⟩ <;>
        simp [run, initSt, check_allowed_fields, disallowed_fields,
          attempted_fields, allowed_fields, handle_deliverer,
          handle_delivery_address, handle_intent, handle_status_transition,
          save_order, log_entry, STATUS_TRANSITIONS, INTENTS_ORIGIN_STATUSES,
          intent_name, Except.bind, hm, hr]

/-- Witness for C9: a delivery-crew actor submitting a cancellation intent
on the pending `order0` is not rejected by the field guard — it reaches the
transition table and is rejected there with `TransitionForbidden`. -/
theorem C9_witness :
    (run .delivery 1 order0 { intent := some .cancellation } 5 ≠
      .error (.FieldNotPermitted [.intent],
        initSt .delivery 1 order0 { intent := some .cancellation } 5)) ∧
    (run .delivery 1 order0 { intent := some .cancellation } 5 =
      .error (.TransitionForbidden .pending .underReview,
        { order := order0
          data := { status := some (some .underReview) }
          intent := some .cancellation, role := .delivery, userId := 1
          actionDescription := "Customer requested " ++ intent_name .cancellation ++ ". Status transitioned to Under Review."
          dbOrder := order0, dbHistory := [], now := 5 })) :=
  ⟨(C9_intent_bypasses_field_guard .delivery 1 order0 .cancellation 5).1 [.intent]
      (initSt .delivery 1 order0 { intent := some .cancellation } 5),
   (((C9_intent_bypasses_field_guard .delivery 1 order0 .cancellation 5).2
      (by decide) [.admin, .manager, .customer] rfl).2 (by decide))⟩
